import Mathlib

/-!
Verification of the georges accelerator-physics toolkit against its
natural-language specification.

The development shallowly embeds the parts of the code base the claims
refer to:
* `Georges.Manzoni` — the linear transfer-matrix library
  (`src/manzoni/transfer.py`), over `ℝ` (the code's floating-point
  arithmetic is idealised as real arithmetic).
* `Georges.Madx` — the MAD-X command-generation wrapper
  (`src/madx/madx.py`): element/sequence translation and the stateful
  wrapper operations, with the subprocess side effects abstracted to a
  `spawned` flag and Python exceptions reified as `Except` errors.
-/

namespace Georges

namespace Manzoni

/-- An element of the in-process tracking engine: the numeric fields of the
flat per-element array that `transfer.py` indexes through the
`INDEX_ANGLE`, `INDEX_LENGTH`, `INDEX_E1`, `INDEX_E2`, `INDEX_K1`
column constants. -/
structure Element where
  angle : ℝ
  length : ℝ
  e1 : ℝ
  e2 : ℝ
  k1 : ℝ

noncomputable section

/-- Embeds `drift` from `src/manzoni/transfer.py` (lines 18-28). -/
def drift (e : Element) : Matrix (Fin 5) (Fin 5) ℝ :=
  let length := e.length
  !![1, length, 0, 0, 0;
     0, 1, 0, 0, 0;
     0, 0, 1, length, 0;
     0, 0, 0, 1, 0;
     0, 0, 0, 0, 1]

/-- Embeds `sbend` from `src/manzoni/transfer.py` (lines 31-74). -/
def sbend (e : Element) : Matrix (Fin 5) (Fin 5) ℝ :=
  let theta := e.angle
  if theta = 0 then drift e
  else
    let length := e.length
    let s := Real.sin theta
    let c := Real.cos theta
    let m_b : Matrix (Fin 5) (Fin 5) ℝ :=
      !![c, (length / theta) * s, 0, 0, (length / theta) * (1 - c);
         (-(theta / length)) * s, c, 0, 0, s;
         0, 0, 1, length, 0;
         0, 0, 0, 1, 0;
         0, 0, 0, 0, 1]
    if e.e1 = 0 ∧ e.e2 = 0 then m_b
    else
      let k1 := (-1 / (length / theta)) * Real.tan e.e1
      let k2 := (-1 / (length / theta)) * Real.tan e.e2
      let m_e1 : Matrix (Fin 5) (Fin 5) ℝ :=
        !![1, 0, 0, 0, 0;
           -k1, 1, 0, 0, 0;
           0, 0, 1, 0, 0;
           0, 0, k1, 1, 0;
           0, 0, 0, 0, 1]
      let m_e2 : Matrix (Fin 5) (Fin 5) ℝ :=
        !![1, 0, 0, 0, 0;
           -k2, 1, 0, 0, 0;
           0, 0, 1, 0, 0;
           0, 0, k2, 1, 0;
           0, 0, 0, 0, 1]
      m_e2 * m_b * m_e1

/-- Embeds `quadrupole` from `src/manzoni/transfer.py` (lines 77-112). -/
def quadrupole (e : Element) : Matrix (Fin 5) (Fin 5) ℝ :=
  let length := e.length
  let k := e.k1
  if 0 < k then
    let kr := Real.sqrt k
    let kl := kr * length
    let s := Real.sin kl
    let c := Real.cos kl
    let sh := Real.sinh kl
    let ch := Real.cosh kl
    !![c, (1 / kr) * s, 0, 0, 0;
       (-kr) * s, c, 0, 0, 0;
       0, 0, ch, (1 / kr) * sh, 0;
       0, 0, kr * sh, ch, 0;
       0, 0, 0, 0, 1]
  else if k < 0 then
    let kr := Real.sqrt (-k)
    let kl := kr * length
    let s := Real.sin kl
    let c := Real.cos kl
    let sh := Real.sinh kl
    let ch := Real.cosh kl
    !![ch, (1 / kr) * sh, 0, 0, 0;
       kr * sh, ch, 0, 0, 0;
       0, 0, c, (1 / kr) * s, 0;
       0, 0, (-kr) * s, c, 0;
       0, 0, 0, 0, 1]
  else
    1

/-- The core bend matrix exactly as the specification states it:
`[[c,(L/θ)s,0,0,(L/θ)(1-c)],[-(θ/L)s,c,0,0,s],[0,0,1,L,0],[0,0,0,1,0],[0,0,0,0,1]]`
with `s = sin θ`, `c = cos θ`. -/
def coreBendSpec (theta L : ℝ) : Matrix (Fin 5) (Fin 5) ℝ :=
  !![Real.cos theta, (L / theta) * Real.sin theta, 0, 0,
       (L / theta) * (1 - Real.cos theta);
     (-(theta / L)) * Real.sin theta, Real.cos theta, 0, 0, Real.sin theta;
     0, 0, 1, L, 0;
     0, 0, 0, 1, 0;
     0, 0, 0, 0, 1]

/-- The thin-edge matrix exactly as the specification states it:
`[[1,0,0,0,0],[-k,1,0,0,0],[0,0,1,0,0],[0,0,k,1,0],[0,0,0,0,1]]`. -/
def thinEdgeSpec (k : ℝ) : Matrix (Fin 5) (Fin 5) ℝ :=
  !![1, 0, 0, 0, 0;
     -k, 1, 0, 0, 0;
     0, 0, 1, 0, 0;
     0, 0, k, 1, 0;
     0, 0, 0, 0, 1]

/-- The sector-bend matrix as the specification describes it for a nonzero
bend angle: the core matrix when both face angles vanish, and otherwise the
product `m_e2 · m_b · m_e1` with fringe coefficients
`k1 = -tan(e1)/(L/θ)` and `k2 = -tan(e2)/(L/θ)`, exit edge applied last. -/
def sbendSpec (theta L e1 e2 : ℝ) : Matrix (Fin 5) (Fin 5) ℝ :=
  if e1 = 0 ∧ e2 = 0 then coreBendSpec theta L
  else
    thinEdgeSpec (-Real.tan e2 / (L / theta)) * coreBendSpec theta L *
      thinEdgeSpec (-Real.tan e1 / (L / theta))

end

end Manzoni

end Georges

namespace Georges

namespace Madx

/-- A Python exception, reified.  `madxError` stands for `MadxException`,
`simulatorError` for `SimulatorException`; the others are the built-in
`KeyError`, `NameError`, `AttributeError` and `TypeError`. -/
inductive PyError where
  | madxError (msg : String)
  | simulatorError (msg : String)
  | keyError (key : String)
  | nameError (n : String)
  | attributeError (n : String)
  | typeError (msg : String)
deriving DecidableEq, Repr

/-- A scalar value held in a pandas cell: a number or a string.  Numbers are
idealised as rationals; `render` models Python's `str()` of the value (the
claims under verification never depend on the exact numeral text). -/
inductive PyVal where
  | num (q : ℚ)
  | str (s : String)
deriving DecidableEq, Repr

def PyVal.render : PyVal → String
  | .num q => toString q
  | .str s => s

/-- One pandas cell of an element row: missing from the row's index
(`absent`), present but null (`None`/`NaN`, rendered by `str()` as `nan`),
or a value. -/
inductive Cell where
  | absent
  | null
  | val (v : PyVal)
deriving DecidableEq, Repr

/-- Embeds `pd.notnull` on the result of `e.get(key, None)`. -/
def Cell.notnull : Cell → Bool
  | .val _ => true
  | _ => false

/-- Embeds `pd.isnull` of an attribute value (`None`, `NaN` and absence are null). -/
def Cell.isnull (c : Cell) : Bool := ! c.notnull

/-- Whether the cell holds a number. -/
def Cell.isNum : Cell → Bool
  | .val (.num _) => true
  | _ => false

/-- Embeds `str()` of the raw cell value (`str(nan) = "nan"`); only ever applied to
cells known to be present. -/
def Cell.render : Cell → String
  | .val v => v.render
  | _ => "nan"

/-- Strict `e[key]` lookup on a pandas row: raises `KeyError` when the key is
absent from the row's index, otherwise yields the cell. -/
def Cell.item (c : Cell) (key : String) : Except PyError Cell :=
  match c with
  | .absent => .error (.keyError key)
  | c => .ok c

/-- The test `e.get(K) is not None and not np.isnan(e[K])` used for the two
angle fields (madx.py lines 48 and 50): absence short-circuits to false, a
present `NaN` fails `isnan`, a number passes, and a non-numeric value makes
`np.isnan` raise `TypeError`. -/
def angleTest : Cell → Except PyError Bool
  | .absent => .ok false
  | .null => .ok false
  | .val (.num _) => .ok true
  | .val (.str _) => .error (.typeError "isnan not supported for str")

/-- An element row of a beamline table: the row label (`e.name`), the class,
and the cells that `element_to_mad` reads. -/
structure MadElement where
  name : String
  CLASS : String
  BENDING_ANGLE : Cell
  ANGLE : Cell
  APERTYPE : Cell
  E1 : Cell
  E2 : Cell
  FINT : Cell
  HGAP : Cell
  THICK : Cell
  TILT : Cell
  K1 : Cell
  K2 : Cell
  K3 : Cell
  K1S : Cell
  K2S : Cell
  K3S : Cell
  LENGTH : Cell
  APERTURE : Cell
  PLUG : Cell
  CIRCUIT : Cell
  VALUE : Cell
  AT_CENTER : Cell
deriving DecidableEq, Repr

/-- Embeds `e.get(p, None)` for the names appearing in `SUPPORTED_PROPERTIES`. -/
def MadElement.prop (e : MadElement) : String → Cell
  | "APERTYPE" => e.APERTYPE
  | "E1" => e.E1
  | "E2" => e.E2
  | "FINT" => e.FINT
  | "HGAP" => e.HGAP
  | "THICK" => e.THICK
  | "TILT" => e.TILT
  | "K1" => e.K1
  | "K2" => e.K2
  | "K3" => e.K3
  | "K1S" => e.K1S
  | "K2S" => e.K2S
  | "K3S" => e.K3S
  | _ => .absent

/-- Embeds `SUPPORTED_PROPERTIES` from madx.py lines 10-23. -/
def SUPPORTED_PROPERTIES : List String :=
  ["APERTYPE", "E1", "E2", "FINT", "HGAP", "THICK", "TILT",
   "K1", "K2", "K3", "K1S", "K2S", "K3S"]

/-- Embeds `SUPPORTED_CLASSES` from madx.py lines 25-33. -/
def SUPPORTED_CLASSES : List String :=
  ["QUADRUPOLE", "RBEND", "SBEND", "SEXTUPOLE", "OCTUPOLE",
   "MARKER", "COLLIMATOR", "INSTRUMENT"]

/-- Embeds `str(x).strip('[]')`: remove leading and trailing square brackets. -/
def stripSquare (s : String) : String :=
  let br := fun c => c = '[' ∨ c = ']'
  String.mk (((s.toList.dropWhile br).reverse.dropWhile br).reverse)

/-- The test `pd.notnull(e['LENGTH']) and e['LENGTH'] != 0.0` (madx.py line
56); in Python a string compares unequal to `0.0`. -/
def lengthNonzero : Cell → Bool
  | .val (.num q) => decide (q ≠ 0)
  | .val (.str _) => true
  | _ => false

/-- The angle fragment of madx.py lines 48-54: prefer a finite
`BENDING_ANGLE` over a finite `ANGLE`, emit nothing when neither is
present and finite (an exception from `np.isnan` propagates). -/
def angleFragment (e : MadElement) : Except PyError String :=
  match angleTest e.BENDING_ANGLE with
  | .error err => .error err
  | .ok true => .ok ("ANGLE=" ++ e.BENDING_ANGLE.render ++ ",")
  | .ok false =>
    match angleTest e.ANGLE with
    | .error err => .error err
    | .ok true => .ok ("ANGLE=" ++ e.ANGLE.render ++ ",")
    | .ok false => .ok ""

/-- The aperture fragment of madx.py lines 58-59: once `APERTYPE` is
non-null, `e['APERTURE']` is indexed unconditionally (a `KeyError`
propagates when the field is absent). -/
def apertureFragment (e : MadElement) : Except PyError String :=
  if e.APERTYPE.notnull then
    match e.APERTURE.item "APERTURE" with
    | .error err => .error err
    | .ok acell => .ok (", APERTURE=" ++ stripSquare acell.render)
  else .ok ""

/-- Embeds `element_to_mad` from madx.py lines 43-66.  Strict lookups (`e[...]`)
can raise `KeyError` and the `np.isnan` angle test can raise `TypeError`;
exceptions are reified in `Except` and propagate as in Python. -/
def element_to_mad (e : MadElement) : Except PyError String :=
  if ¬ SUPPORTED_CLASSES.contains e.CLASS then .ok "" else
  match angleFragment e with
  | .error err => .error err
  | .ok angf =>
    let mad := e.name ++ ": " ++ e.CLASS ++ ", " ++ angf
    let mad := mad ++ String.intercalate ", "
      ((SUPPORTED_PROPERTIES.filter (fun p => (e.prop p).notnull)).map
        (fun p => p ++ "=" ++ (e.prop p).render))
    match e.LENGTH.item "LENGTH" with
    | .error err => .error err
    | .ok lcell =>
      let mad := if lengthNonzero lcell then mad ++ ", L=" ++ lcell.render else mad
      match apertureFragment e with
      | .error err => .error err
      | .ok apf =>
        let mad := mad ++ apf
        let mad := if e.PLUG.notnull && e.CIRCUIT.notnull && ! e.VALUE.notnull then
            mad ++ ", " ++ e.PLUG.render ++ ":=" ++ e.CIRCUIT.render
          else mad
        let mad := if e.PLUG.notnull && e.VALUE.notnull then
            mad ++ ", " ++ e.PLUG.render ++ "=" ++ e.VALUE.render
          else mad
        match e.AT_CENTER.item "AT_CENTER" with
        | .error err => .error err
        | .ok ccell => .ok (mad ++ ", AT=" ++ ccell.render ++ ";")

/-- A beamline table (`beamline.line`): its `name` and `length` attributes,
its rows, and whether a `CIRCUIT` column exists (`'CIRCUIT' in sequence`). -/
structure MadSequence where
  name : String
  length : Cell
  rows : List MadElement
  hasCircuit : Bool
deriving Repr

/-- The numeric sort key of `sort_values(by='AT_CENTER')`; the claims are
stated for rows whose center position is a number. -/
def atKey (e : MadElement) : ℚ :=
  match e.AT_CENTER with
  | .val (.num q) => q
  | _ => 0

/-- Embeds `sequence.sort_values(by='AT_CENTER')`: a sort of the rows by ascending
center position (pandas' default quicksort is modelled by a correct
comparison sort; the observable facts are that the result is a permutation
sorted by the key). -/
def sortRows (rows : List MadElement) : List MadElement :=
  List.insertionSort (fun a b => atKey a ≤ atKey b) rows

/-- One deferred-template assignment line
`c:={{ c or '0.0' }};` (madx.py line 78). -/
def circuitLine (c : String) : String :=
  c ++ ":=\x7b\x7b " ++ c ++ " or \x270.0\x27 \x7d\x7d;"

/-- Embeds `sequence['CIRCUIT'].dropna()` over the (sorted) rows: the non-null
circuit names. -/
def circuitNames (rows : List MadElement) : List String :=
  rows.filterMap (fun e =>
    match e.CIRCUIT with
    | .val v => some v.render
    | _ => none)

/-- Embeds `sequence_to_mad` from madx.py lines 69-80.  The in-place sort happens
first; the dead `if sequence is None` check on line 72 (unreachable after
the attribute accesses of line 71) is dropped.  An exception raised by
`element_to_mad` on any row propagates. -/
def sequence_to_mad (s : MadSequence) : Except PyError String :=
  let sorted := sortRows s.rows
  match sorted.mapM element_to_mad with
  | .error err => .error err
  | .ok lines =>
    let m := s.name ++ ": SEQUENCE, L=" ++ s.length.render ++ ", REFER=CENTER;\n"
    let m := m ++ String.intercalate "\n" lines ++ "\n"
    let m := m ++ "ENDSEQUENCE;\n"
    if s.hasCircuit then
      .ok (m ++ String.intercalate "\n" ((circuitNames sorted).map circuitLine) ++ "\n")
    else
      .ok m

/-- Modelled from the spec: the Command Grammar (`src/madx/grammar.py`,
absent from the excerpt) maps a symbolic command identifier and a tuple of
positional parameters to the exact corresponding command text.  The concrete
template texts are not given by the spec, so the rendered text is represented
abstractly but deterministically; the claims only observe which commands are
appended and in which order. -/
def render_cmd (name : String) (args : List String) : String :=
  name ++ "(" ++ String.intercalate ", " args ++ ");\n"

/-- A beamline object as passed to the wrapper: its `name` and `length`
attributes and its element table `line`. -/
structure Beamline where
  name : String
  length : Cell
  line : MadSequence
deriving Repr

/-- The wrapper state the claims observe: the resolved executable
(modelled from the spec: `resolve executable()` "yields none if
unresolved"), the accumulating input-text buffer `_input`, and the
attached beamline (modelled from the spec: `attach(beamline)` "records the
beamline for later use"). -/
structure MadxState where
  exec : Option String
  input : String
  attached : Option Beamline
deriving Repr

/-- Embeds `Simulator._add_input` (modelled from the spec: "looks up the command
template by name in the Command Grammar and appends its rendered text to the
buffer"). -/
def MadxState.add_input (st : MadxState) (name : String) (args : List String) :
    MadxState :=
  ⟨st.exec, st.input ++ render_cmd name args, st.attached⟩

/-- Embeds `Madx.run` from madx.py lines 102-123, up to the subprocess boundary:
the buffer is first extended with the rendered stop command, the deferred
template is rendered (a pure computation that does not mutate `_input`),
and if no executable is resolved a `MadxException` is raised before any
subprocess is spawned.  The spawn/communicate/output-capture tail is
abstracted into the `spawned` flag of the result. -/
structure RunResult where
  state : MadxState
  spawned : Bool
  error : Option PyError
deriving Repr

def run (st : MadxState) : RunResult :=
  let st := MadxState.mk st.exec (st.input ++ render_cmd "stop" []) st.attached
  match st.exec with
  | none => ⟨st, false,
      some (.madxError "Can't run MADX if no valid path and executable are defined.")⟩
  | some _ => ⟨st, true, none⟩

/-- Embeds `Madx._attach` from madx.py lines 96-100.  The base-class part is
modelled from the spec (§4.3): it records the beamline.  Then the length
check raises `SimulatorException` for an undefined (`None`/`NaN`) length,
and otherwise the translated sequence is appended to the buffer.  The pair
returned is the mutated state together with the raised exception, if any. -/
def attach (st : MadxState) (bl : Beamline) : MadxState × Option PyError :=
  let st := MadxState.mk st.exec st.input (some bl)
  if bl.length.isnull then
    (st, some (.simulatorError "Beamline length not defined."))
  else
    match sequence_to_mad bl.line with
    | .ok m => (MadxState.mk st.exec (st.input ++ m) st.attached, none)
    | .error err => (st, some err)

/-- Embeds `Madx.match` from madx.py lines 331-341 (named `matchCmd` because
`match` is reserved in Lean).  After the three validations succeed, line 341
evaluates `self._add_input('match', sequence)`; the name `sequence` is
undefined in every enclosing scope (the validated local is `seq`, and the
module defines no global `sequence`), so Python raises `NameError` before
`_add_input` runs and nothing is appended to the buffer. -/
def matchCmd (st : MadxState) (sequence : Option String)
    (vary : Option (List String)) (constraints : Option (List (String × String))) :
    MadxState × Option PyError :=
  match sequence with
  | none => (st, some (.madxError "A sequence name must be provided."))
  | some _ =>
    match vary with
    | none => (st, some (.madxError "A list of length > 0 of parameters must be provided."))
    | some v =>
      if v.length < 1 then
        (st, some (.madxError "A list of length > 0 of parameters must be provided."))
      else
        match constraints with
        | none => (st, some (.madxError "A dictionary of constraints should be provided."))
        | some _ => (st, some (.nameError "sequence"))

/-- Embeds `Madx.makethin` from madx.py lines 170-179.  The `kwargs.get` defaults
are `style = "TEAPOT"` and 4 slices each; callers pass them explicitly
here. -/
def makethin (st : MadxState) (sequence style : String)
    (dipole_slices quadrupole_slices : Nat) : MadxState :=
  let st := MadxState.mk st.exec
    (st.input ++ "SELECT, FLAG=makethin, CLASS=quadrupole, THICK=false, SLICE=" ++
      toString quadrupole_slices ++ ";\n") st.attached
  let st := MadxState.mk st.exec
    (st.input ++ "SELECT, FLAG=makethin, CLASS=rbend, THICK=false, SLICE=" ++
      toString dipole_slices ++ ";\n") st.attached
  let st := st.add_input "makethin" [sequence, style]
  st.add_input "use_sequence" [sequence]

/-- A particle table: its column names and its rows (`len(particles)` is the
row count). -/
structure Particles where
  cols : List String
  rows : List (List (String × PyVal))
deriving Repr

/-- Embeds `Madx.__add_particles_for_tracking` from madx.py lines 256-263 (stored
on the class under the name-mangled attribute
`_Madx__add_particles_for_tracking`): skip injection when the required set
`{X, PX, Y, PY, DPP}` is a strict superset of the particle columns, else
append one start command per row. -/
def add_particles_for_tracking (st : MadxState) (particles : Particles)
    (ptc : Bool) : MadxState :=
  let required := ["X", "PX", "Y", "PY", "DPP"]
  if particles.cols.all (fun c => required.contains c) &&
      ! required.all (fun c => particles.cols.contains c) then st
  else
    particles.rows.foldl
      (fun st r =>
        st.add_input (if ptc then "ptc_start" else "start_particle")
          [String.intercalate ", " (r.map (fun kv => kv.1 ++ "=" ++ kv.2.render))])
      st

/-- Embeds `Madx.__madx_track` from madx.py lines 294-304.  With zero particles it
only prints a notice and returns with the state untouched.  Otherwise it
thins the beamline and issues the track-beamline command, and then line 300
evaluates `self._add_particles_for_tracking(particles)`: that attribute name
(single leading underscore, so not name-mangled) exists neither on `Madx`
(which only defines the mangled `_Madx__add_particles_for_tracking`) nor on
the spec's Simulator abstraction, so Python raises `AttributeError` there;
the particle injection, observation points, run-track and end-track commands
of lines 300-303 are unreachable. -/
def madx_track (st : MadxState) (particles : Particles) (bl : Beamline)
    (style : String) (dipole_slices quadrupole_slices : Nat) :
    MadxState × Option PyError :=
  if particles.rows.length = 0 then (st, none)
  else
    let st := makethin st bl.name style dipole_slices quadrupole_slices
    let st := st.add_input "track_beamline" []
    (st, some (.attributeError "_add_particles_for_tracking"))

/-- A concrete marker row used in examples: all optional cells absent, a
null length, a numeric center position. -/
def markerRow (nm : String) (q : ℚ) : MadElement :=
  ⟨nm, "MARKER", .absent, .absent, .absent, .absent, .absent, .absent, .absent,
   .absent, .absent, .absent, .absent, .absent, .absent, .absent, .absent,
   .null, .absent, .absent, .absent, .absent, .val (.num q)⟩

/-- A concrete row of an unsupported class. -/
def fooRow : MadElement :=
  ⟨"S1", "SOLENOID", .absent, .absent, .absent, .absent, .absent, .absent, .absent,
   .absent, .absent, .absent, .absent, .absent, .absent, .absent, .absent,
   .null, .absent, .absent, .absent, .absent, .val (.num 1)⟩

/-- A concrete quadrupole row with a non-null `APERTYPE` but no `APERTURE`
field. -/
def aperRow : MadElement :=
  ⟨"Q1", "QUADRUPOLE", .absent, .absent, .val (.str "CIRCLE"), .absent, .absent,
   .absent, .absent, .absent, .absent, .absent, .absent, .absent, .absent,
   .absent, .absent, .null, .absent, .absent, .absent, .absent, .val (.num 1)⟩

/-- A concrete two-row sequence given in descending position order. -/
def seq0 : MadSequence :=
  ⟨"SEQ", .val (.num 10), [markerRow "M2" 2, markerRow "M1" 1], false⟩

def emptyLine : MadSequence := ⟨"BL", .val (.num 10), [], false⟩

/-- A concrete beamline with a defined length. -/
def bl0 : Beamline := ⟨"BL", .val (.num 10), emptyLine⟩

/-- A concrete beamline with an undefined (`NaN`) length. -/
def blNoLength : Beamline := ⟨"BL", .null, emptyLine⟩

/-- A concrete wrapper state with a resolved executable and empty buffer. -/
def st0 : MadxState := ⟨some "madx", "", none⟩

/-- A concrete wrapper state with no resolved executable. -/
def stNoExec : MadxState := ⟨none, "BEAM;", none⟩

/-- One particle carrying the minimum attribute set. -/
def oneParticle : Particles :=
  ⟨["X", "PX", "Y", "PY", "DPP"],
   [[("X", .num 0), ("PX", .num 0), ("Y", .num 0), ("PY", .num 0), ("DPP", .num 0)]]⟩

/-- An empty particle table. -/
def noParticles : Particles := ⟨["X", "PX", "Y", "PY", "DPP"], []⟩

end Madx

end Georges

/-- C5: for every element whose bend-angle field is exactly zero, `sbend`
returns exactly the drift matrix of the same element (identity with
`x += L·x'`, `y += L·y'`, fifth coordinate unchanged). -/
theorem Georges.Manzoni.sbend_zero_angle (e : Georges.Manzoni.Element)
    (h : e.angle = 0) : Georges.Manzoni.sbend e = Georges.Manzoni.drift e := by
  simp [Georges.Manzoni.sbend, h]

/-- Witness for C5 at the concrete element (angle 0, length 1). -/
theorem Georges.Manzoni.sbend_zero_angle_witness :
    Georges.Manzoni.sbend ⟨0, 1, 0, 0, 0⟩ = Georges.Manzoni.drift ⟨0, 1, 0, 0, 0⟩ :=
  Georges.Manzoni.sbend_zero_angle ⟨0, 1, 0, 0, 0⟩ rfl

/-- C3: for every sector bend with nonzero bend angle, the computed transfer
matrix equals the specification's matrix: the core bend matrix when both face
angles are zero, and otherwise the product of entrance/exit thin-edge matrices
with `k1 = -tan(e1)/(L/θ)`, `k2 = -tan(e2)/(L/θ)` around the core, exit
applied last. -/
theorem Georges.Manzoni.sbend_eq_spec (e : Georges.Manzoni.Element)
    (h : e.angle ≠ 0) :
    Georges.Manzoni.sbend e =
      Georges.Manzoni.sbendSpec e.angle e.length e.e1 e.e2 := by
  have hk1 : (-1 / (e.length / e.angle)) * Real.tan e.e1 =
      -Real.tan e.e1 / (e.length / e.angle) := by ring
  have hk2 : (-1 / (e.length / e.angle)) * Real.tan e.e2 =
      -Real.tan e.e2 / (e.length / e.angle) := by ring
  rw [Georges.Manzoni.sbend, Georges.Manzoni.sbendSpec]
  simp only [h, if_false]
  split_ifs with h12
  · rw [Georges.Manzoni.coreBendSpec]
  · rw [Georges.Manzoni.coreBendSpec, Georges.Manzoni.thinEdgeSpec,
      Georges.Manzoni.thinEdgeSpec, ← hk1, ← hk2]

/-- Witness for C3 at the concrete element (angle 1, length 1, face angles 0). -/
theorem Georges.Manzoni.sbend_eq_spec_witness :
    (1 : ℝ) ≠ 0 ∧
      Georges.Manzoni.sbend ⟨1, 1, 0, 0, 0⟩ =
        Georges.Manzoni.sbendSpec 1 1 0 0 :=
  ⟨one_ne_zero, Georges.Manzoni.sbend_eq_spec ⟨1, 1, 0, 0, 0⟩ one_ne_zero⟩

/-- C4: for a quadrupole with normalized strength `k > 0` and length `L`, the
(1,1) and (2,2) entries equal `cos(√k·L)`, the horizontal 2×2 block is
trigonometric and the vertical 2×2 block hyperbolic; and for the same element
with strength `-k` the two transverse blocks are exactly swapped (the mirror
image of the `k > 0` case). -/
theorem Georges.Manzoni.quadrupole_blocks (e : Georges.Manzoni.Element)
    (h : 0 < e.k1) :
    (Georges.Manzoni.quadrupole e 0 0 = Real.cos (Real.sqrt e.k1 * e.length) ∧
     Georges.Manzoni.quadrupole e 1 1 = Real.cos (Real.sqrt e.k1 * e.length)) ∧
    (Georges.Manzoni.quadrupole e 0 1 =
        (1 / Real.sqrt e.k1) * Real.sin (Real.sqrt e.k1 * e.length) ∧
     Georges.Manzoni.quadrupole e 1 0 =
        (-(Real.sqrt e.k1)) * Real.sin (Real.sqrt e.k1 * e.length)) ∧
    (Georges.Manzoni.quadrupole e 2 2 = Real.cosh (Real.sqrt e.k1 * e.length) ∧
     Georges.Manzoni.quadrupole e 2 3 =
        (1 / Real.sqrt e.k1) * Real.sinh (Real.sqrt e.k1 * e.length) ∧
     Georges.Manzoni.quadrupole e 3 2 =
        Real.sqrt e.k1 * Real.sinh (Real.sqrt e.k1 * e.length) ∧
     Georges.Manzoni.quadrupole e 3 3 = Real.cosh (Real.sqrt e.k1 * e.length)) ∧
    (Georges.Manzoni.quadrupole ⟨e.angle, e.length, e.e1, e.e2, -e.k1⟩ 0 0 =
        Georges.Manzoni.quadrupole e 2 2 ∧
     Georges.Manzoni.quadrupole ⟨e.angle, e.length, e.e1, e.e2, -e.k1⟩ 0 1 =
        Georges.Manzoni.quadrupole e 2 3 ∧
     Georges.Manzoni.quadrupole ⟨e.angle, e.length, e.e1, e.e2, -e.k1⟩ 1 0 =
        Georges.Manzoni.quadrupole e 3 2 ∧
     Georges.Manzoni.quadrupole ⟨e.angle, e.length, e.e1, e.e2, -e.k1⟩ 1 1 =
        Georges.Manzoni.quadrupole e 3 3 ∧
     Georges.Manzoni.quadrupole ⟨e.angle, e.length, e.e1, e.e2, -e.k1⟩ 2 2 =
        Georges.Manzoni.quadrupole e 0 0 ∧
     Georges.Manzoni.quadrupole ⟨e.angle, e.length, e.e1, e.e2, -e.k1⟩ 2 3 =
        Georges.Manzoni.quadrupole e 0 1 ∧
     Georges.Manzoni.quadrupole ⟨e.angle, e.length, e.e1, e.e2, -e.k1⟩ 3 2 =
        Georges.Manzoni.quadrupole e 1 0 ∧
     Georges.Manzoni.quadrupole ⟨e.angle, e.length, e.e1, e.e2, -e.k1⟩ 3 3 =
        Georges.Manzoni.quadrupole e 1 1) := by
  have h1 : ¬ (0 < -e.k1) := by linarith
  have h2 : -e.k1 < 0 := by linarith
  simp only [Georges.Manzoni.quadrupole, if_pos h, if_neg h1, if_pos h2, neg_neg]
  norm_num [Matrix.cons_val_zero, Matrix.cons_val_one, Matrix.head_cons,
    Matrix.cons_val_two, Matrix.cons_val_three, Matrix.tail_cons,
    Matrix.head_fin_const, Matrix.vecTail, Matrix.vecHead]

/-- Witness for C4 at the concrete element (length 1, strength 1). -/
theorem Georges.Manzoni.quadrupole_blocks_witness :
    (0 : ℝ) < 1 ∧
    ((Georges.Manzoni.quadrupole ⟨0, 1, 0, 0, 1⟩ 0 0 =
        Real.cos (Real.sqrt 1 * 1) ∧
      Georges.Manzoni.quadrupole ⟨0, 1, 0, 0, 1⟩ 1 1 =
        Real.cos (Real.sqrt 1 * 1)) ∧
     (Georges.Manzoni.quadrupole ⟨0, 1, 0, 0, 1⟩ 0 1 =
        (1 / Real.sqrt 1) * Real.sin (Real.sqrt 1 * 1) ∧
      Georges.Manzoni.quadrupole ⟨0, 1, 0, 0, 1⟩ 1 0 =
        (-(Real.sqrt 1)) * Real.sin (Real.sqrt 1 * 1)) ∧
     (Georges.Manzoni.quadrupole ⟨0, 1, 0, 0, 1⟩ 2 2 =
        Real.cosh (Real.sqrt 1 * 1) ∧
      Georges.Manzoni.quadrupole ⟨0, 1, 0, 0, 1⟩ 2 3 =
        (1 / Real.sqrt 1) * Real.sinh (Real.sqrt 1 * 1) ∧
      Georges.Manzoni.quadrupole ⟨0, 1, 0, 0, 1⟩ 3 2 =
        Real.sqrt 1 * Real.sinh (Real.sqrt 1 * 1) ∧
      Georges.Manzoni.quadrupole ⟨0, 1, 0, 0, 1⟩ 3 3 =
        Real.cosh (Real.sqrt 1 * 1)) ∧
     (Georges.Manzoni.quadrupole ⟨0, 1, 0, 0, -1⟩ 0 0 =
        Georges.Manzoni.quadrupole ⟨0, 1, 0, 0, 1⟩ 2 2 ∧
      Georges.Manzoni.quadrupole ⟨0, 1, 0, 0, -1⟩ 0 1 =
        Georges.Manzoni.quadrupole ⟨0, 1, 0, 0, 1⟩ 2 3 ∧
      Georges.Manzoni.quadrupole ⟨0, 1, 0, 0, -1⟩ 1 0 =
        Georges.Manzoni.quadrupole ⟨0, 1, 0, 0, 1⟩ 3 2 ∧
      Georges.Manzoni.quadrupole ⟨0, 1, 0, 0, -1⟩ 1 1 =
        Georges.Manzoni.quadrupole ⟨0, 1, 0, 0, 1⟩ 3 3 ∧
      Georges.Manzoni.quadrupole ⟨0, 1, 0, 0, -1⟩ 2 2 =
        Georges.Manzoni.quadrupole ⟨0, 1, 0, 0, 1⟩ 0 0 ∧
      Georges.Manzoni.quadrupole ⟨0, 1, 0, 0, -1⟩ 2 3 =
        Georges.Manzoni.quadrupole ⟨0, 1, 0, 0, 1⟩ 0 1 ∧
      Georges.Manzoni.quadrupole ⟨0, 1, 0, 0, -1⟩ 3 2 =
        Georges.Manzoni.quadrupole ⟨0, 1, 0, 0, 1⟩ 1 0 ∧
      Georges.Manzoni.quadrupole ⟨0, 1, 0, 0, -1⟩ 3 3 =
        Georges.Manzoni.quadrupole ⟨0, 1, 0, 0, 1⟩ 1 1)) :=
  ⟨one_pos, Georges.Manzoni.quadrupole_blocks ⟨0, 1, 0, 0, 1⟩ one_pos⟩

/-- C7: for every element record whose class is not in the fixed supported
set, `element_to_mad` returns the empty string. -/
theorem Georges.Madx.element_to_mad_unsupported (e : Georges.Madx.MadElement)
    (h : ¬ Georges.Madx.SUPPORTED_CLASSES.contains e.CLASS = true) :
    Georges.Madx.element_to_mad e = Except.ok "" := by
  unfold Georges.Madx.element_to_mad
  rw [if_pos h]

/-- Witness for C7 at a concrete row of class `SOLENOID`. -/
theorem Georges.Madx.element_to_mad_unsupported_witness :
    ¬ Georges.Madx.SUPPORTED_CLASSES.contains Georges.Madx.fooRow.CLASS = true ∧
    Georges.Madx.element_to_mad Georges.Madx.fooRow = Except.ok "" :=
  ⟨by decide, Georges.Madx.element_to_mad_unsupported Georges.Madx.fooRow (by decide)⟩

/-- Helper for C10: once `APERTYPE` is non-null and `APERTURE` is absent,
the aperture fragment is a `KeyError` on `APERTURE`. -/
theorem Georges.Madx.apertureFragment_absent (e : Georges.Madx.MadElement)
    (hat : e.APERTYPE.notnull = true)
    (hap : e.APERTURE = Georges.Madx.Cell.absent) :
    Georges.Madx.apertureFragment e =
      Except.error (Georges.Madx.PyError.keyError "APERTURE") := by
  simp [Georges.Madx.apertureFragment, hat, hap, Georges.Madx.Cell.item]

/-- Helper for C10: an exception from the aperture fragment propagates out of
`element_to_mad` when the earlier fragments succeed. -/
theorem Georges.Madx.elem_err_of_aperture (e : Georges.Madx.MadElement)
    (hcl : Georges.Madx.SUPPORTED_CLASSES.contains e.CLASS = true)
    (sfrag : String) (hfrag : Georges.Madx.angleFragment e = Except.ok sfrag)
    (lcell : Georges.Madx.Cell)
    (hl : e.LENGTH.item "LENGTH" = Except.ok lcell)
    (err : Georges.Madx.PyError)
    (hap2 : Georges.Madx.apertureFragment e = Except.error err) :
    Georges.Madx.element_to_mad e = Except.error err := by
  have hmem : e.CLASS ∈ Georges.Madx.SUPPORTED_CLASSES := by simpa using hcl
  simp [Georges.Madx.element_to_mad, hmem, hfrag, hl, hap2]

/-- C10: for every element record of a supported class whose `APERTYPE` is
present and non-null but whose `APERTURE` field is absent (and whose angle
cells are well typed so that `np.isnan` does not itself raise),
`element_to_mad` raises a key-lookup error instead of returning a command
string; when the `LENGTH` field is present the error is precisely the
unconditional `KeyError` on `APERTURE`. -/
theorem Georges.Madx.element_to_mad_aperture_keyError (e : Georges.Madx.MadElement)
    (hcl : Georges.Madx.SUPPORTED_CLASSES.contains e.CLASS = true)
    (hb : ∃ b, Georges.Madx.angleTest e.BENDING_ANGLE = Except.ok b)
    (ha : ∃ b, Georges.Madx.angleTest e.ANGLE = Except.ok b)
    (hat : e.APERTYPE.notnull = true)
    (hap : e.APERTURE = Georges.Madx.Cell.absent) :
    (∃ k, Georges.Madx.element_to_mad e =
        Except.error (Georges.Madx.PyError.keyError k)) ∧
    (e.LENGTH ≠ Georges.Madx.Cell.absent →
      Georges.Madx.element_to_mad e =
        Except.error (Georges.Madx.PyError.keyError "APERTURE")) := by
  obtain ⟨b1, hb⟩ := hb
  obtain ⟨b2, ha⟩ := ha
  have hfrag : ∃ sfrag, Georges.Madx.angleFragment e = Except.ok sfrag := by
    cases b1 with
    | true =>
      exact ⟨"ANGLE=" ++ e.BENDING_ANGLE.render ++ ",",
        by simp only [Georges.Madx.angleFragment, hb]⟩
    | false =>
      cases b2 with
      | true =>
        exact ⟨"ANGLE=" ++ e.ANGLE.render ++ ",",
          by simp only [Georges.Madx.angleFragment, hb, ha]⟩
      | false => exact ⟨"", by simp only [Georges.Madx.angleFragment, hb, ha]⟩
  obtain ⟨sfrag, hfrag⟩ := hfrag
  have hap2 := Georges.Madx.apertureFragment_absent e hat hap
  have hmem : e.CLASS ∈ Georges.Madx.SUPPORTED_CLASSES := by simpa using hcl
  constructor
  · cases hl : e.LENGTH with
    | absent =>
      exact ⟨"LENGTH", by
        simp [Georges.Madx.element_to_mad, hmem, hfrag, hl, Georges.Madx.Cell.item]⟩
    | null =>
      exact ⟨"APERTURE", Georges.Madx.elem_err_of_aperture e hcl sfrag hfrag
        Georges.Madx.Cell.null (by simp [hl, Georges.Madx.Cell.item]) _ hap2⟩
    | val v =>
      exact ⟨"APERTURE", Georges.Madx.elem_err_of_aperture e hcl sfrag hfrag
        (Georges.Madx.Cell.val v) (by simp [hl, Georges.Madx.Cell.item]) _ hap2⟩
  · intro hne
    cases hl : e.LENGTH with
    | absent => exact absurd hl hne
    | null =>
      exact Georges.Madx.elem_err_of_aperture e hcl sfrag hfrag
        Georges.Madx.Cell.null (by simp [hl, Georges.Madx.Cell.item]) _ hap2
    | val v =>
      exact Georges.Madx.elem_err_of_aperture e hcl sfrag hfrag
        (Georges.Madx.Cell.val v) (by simp [hl, Georges.Madx.Cell.item]) _ hap2

/-- Witness for C10 at a concrete quadrupole row with `APERTYPE` set and no
`APERTURE`. -/
theorem Georges.Madx.element_to_mad_aperture_keyError_witness :
    Georges.Madx.aperRow.APERTYPE.notnull = true ∧
    Georges.Madx.aperRow.APERTURE = Georges.Madx.Cell.absent ∧
    ((∃ k, Georges.Madx.element_to_mad Georges.Madx.aperRow =
        Except.error (Georges.Madx.PyError.keyError k)) ∧
     (Georges.Madx.aperRow.LENGTH ≠ Georges.Madx.Cell.absent →
       Georges.Madx.element_to_mad Georges.Madx.aperRow =
         Except.error (Georges.Madx.PyError.keyError "APERTURE"))) :=
  ⟨rfl, rfl,
   Georges.Madx.element_to_mad_aperture_keyError Georges.Madx.aperRow
     (by decide) ⟨false, rfl⟩ ⟨false, rfl⟩ rfl rfl⟩

/-- C6: for every beamline table whose translation succeeds, the element
command lines are those of the rows re-sorted by ascending center position
(a permutation of the input rows, emitted in key-sorted order regardless of
the input row order), the element listing is closed by an `ENDSEQUENCE`
line, and when a `CIRCUIT` column exists one deferred-template assignment
line of the form `c:={{ c or '0.0' }};` is appended per non-null circuit
name, so that the named variable defaults to `'0.0'` at render time. -/
theorem Georges.Madx.sequence_to_mad_sorted (s : Georges.Madx.MadSequence)
    (out : String)
    (hnum : ∀ e ∈ s.rows, e.AT_CENTER.isNum = true)
    (h : Georges.Madx.sequence_to_mad s = Except.ok out) :
    (Georges.Madx.sortRows s.rows).Perm s.rows ∧
    (Georges.Madx.sortRows s.rows).Pairwise
      (fun a b => Georges.Madx.atKey a ≤ Georges.Madx.atKey b) ∧
    ∃ lines,
      (Georges.Madx.sortRows s.rows).mapM Georges.Madx.element_to_mad =
        Except.ok lines ∧
      (s.hasCircuit = true →
        out = s.name ++ ": SEQUENCE, L=" ++ s.length.render ++
          ", REFER=CENTER;\n" ++ String.intercalate "\n" lines ++ "\n" ++
          "ENDSEQUENCE;\n" ++
          String.intercalate "\n"
            ((Georges.Madx.circuitNames (Georges.Madx.sortRows s.rows)).map
              Georges.Madx.circuitLine) ++ "\n") ∧
      (s.hasCircuit = false →
        out = s.name ++ ": SEQUENCE, L=" ++ s.length.render ++
          ", REFER=CENTER;\n" ++ String.intercalate "\n" lines ++ "\n" ++
          "ENDSEQUENCE;\n") := by
  refine ⟨List.perm_insertionSort _ _, ?_, ?_⟩
  · haveI : IsTotal Georges.Madx.MadElement
        (fun a b => Georges.Madx.atKey a ≤ Georges.Madx.atKey b) :=
      ⟨fun a b => le_total _ _⟩
    haveI : IsTrans Georges.Madx.MadElement
        (fun a b => Georges.Madx.atKey a ≤ Georges.Madx.atKey b) :=
      ⟨fun a b c hab hbc => le_trans hab hbc⟩
    exact List.sorted_insertionSort _ _
  · simp only [Georges.Madx.sequence_to_mad] at h
    cases hm : (Georges.Madx.sortRows s.rows).mapM Georges.Madx.element_to_mad with
    | error err => rw [hm] at h; simp at h
    | ok lines =>
      rw [hm] at h
      refine ⟨lines, rfl, ?_, ?_⟩
      · intro hc
        simp only [hc, if_true, Except.ok.injEq] at h
        exact h.symm
      · intro hc
        simp only [hc, Bool.false_eq_true, if_false, Except.ok.injEq] at h
        exact h.symm

/-- Witness for C6 at the concrete two-row sequence given in descending
order. -/
theorem Georges.Madx.sequence_to_mad_sorted_witness :
    Georges.Madx.sequence_to_mad Georges.Madx.seq0 =
      Except.ok "SEQ: SEQUENCE, L=10, REFER=CENTER;\nM1: MARKER, , AT=1;\nM2: MARKER, , AT=2;\nENDSEQUENCE;\n" ∧
    ((Georges.Madx.sortRows Georges.Madx.seq0.rows).Perm Georges.Madx.seq0.rows ∧
     (Georges.Madx.sortRows Georges.Madx.seq0.rows).Pairwise
       (fun a b => Georges.Madx.atKey a ≤ Georges.Madx.atKey b) ∧
     ∃ lines,
       (Georges.Madx.sortRows Georges.Madx.seq0.rows).mapM
           Georges.Madx.element_to_mad = Except.ok lines ∧
       (Georges.Madx.seq0.hasCircuit = true →
         "SEQ: SEQUENCE, L=10, REFER=CENTER;\nM1: MARKER, , AT=1;\nM2: MARKER, , AT=2;\nENDSEQUENCE;\n" =
           Georges.Madx.seq0.name ++ ": SEQUENCE, L=" ++
           Georges.Madx.seq0.length.render ++ ", REFER=CENTER;\n" ++
           String.intercalate "\n" lines ++ "\n" ++ "ENDSEQUENCE;\n" ++
           String.intercalate "\n"
             ((Georges.Madx.circuitNames
                (Georges.Madx.sortRows Georges.Madx.seq0.rows)).map
               Georges.Madx.circuitLine) ++ "\n") ∧
       (Georges.Madx.seq0.hasCircuit = false →
         "SEQ: SEQUENCE, L=10, REFER=CENTER;\nM1: MARKER, , AT=1;\nM2: MARKER, , AT=2;\nENDSEQUENCE;\n" =
           Georges.Madx.seq0.name ++ ": SEQUENCE, L=" ++
           Georges.Madx.seq0.length.render ++ ", REFER=CENTER;\n" ++
           String.intercalate "\n" lines ++ "\n" ++ "ENDSEQUENCE;\n")) :=
  ⟨rfl,
   Georges.Madx.sequence_to_mad_sorted Georges.Madx.seq0
     "SEQ: SEQUENCE, L=10, REFER=CENTER;\nM1: MARKER, , AT=1;\nM2: MARKER, , AT=2;\nENDSEQUENCE;\n"
     (by decide) rfl⟩

/-- C1: `Madx.match` rejects a missing sequence name, a missing or empty
vary list, and a missing constraints mapping with a `MadxException` and no
buffer change; but with all three supplied the call does not issue a match
command: line 341 references the undefined name `sequence` (the validated
local is `seq`), so Python raises `NameError` and nothing is appended to the
input buffer. -/
theorem Georges.Madx.match_validation_and_nameError :
    (Georges.Madx.matchCmd Georges.Madx.st0 none (some ["K1"])
        (some [("Q1", "BETX=1")]) =
      (Georges.Madx.st0,
       some (Georges.Madx.PyError.madxError "A sequence name must be provided."))) ∧
    (Georges.Madx.matchCmd Georges.Madx.st0 (some "SEQ") none
        (some [("Q1", "BETX=1")]) =
      (Georges.Madx.st0,
       some (Georges.Madx.PyError.madxError
         "A list of length > 0 of parameters must be provided."))) ∧
    (Georges.Madx.matchCmd Georges.Madx.st0 (some "SEQ") (some [])
        (some [("Q1", "BETX=1")]) =
      (Georges.Madx.st0,
       some (Georges.Madx.PyError.madxError
         "A list of length > 0 of parameters must be provided."))) ∧
    (Georges.Madx.matchCmd Georges.Madx.st0 (some "SEQ") (some ["K1"]) none =
      (Georges.Madx.st0,
       some (Georges.Madx.PyError.madxError
         "A dictionary of constraints should be provided."))) ∧
    (Georges.Madx.matchCmd Georges.Madx.st0 (some "SEQ") (some ["K1"])
        (some [("Q1", "BETX=1")]) =
      (Georges.Madx.st0, some (Georges.Madx.PyError.nameError "sequence"))) :=
  ⟨rfl, rfl, rfl, rfl, rfl⟩

/-- C2: `run` fails with a `MadxException` and spawns no subprocess when no
executable is resolved, and `_attach` fails with a `SimulatorException` when
the beamline length is undefined (`None`/`NaN`), appending nothing to the
input buffer; neither path reaches the external engine. -/
theorem Georges.Madx.run_attach_config_errors (st : Georges.Madx.MadxState)
    (bl : Georges.Madx.Beamline)
    (hexec : st.exec = none) (hlen : bl.length.isnull = true) :
    ((Georges.Madx.run st).spawned = false ∧
     (Georges.Madx.run st).error =
       some (Georges.Madx.PyError.madxError
         "Can't run MADX if no valid path and executable are defined.")) ∧
    ((Georges.Madx.attach st bl).2 =
       some (Georges.Madx.PyError.simulatorError "Beamline length not defined.") ∧
     (Georges.Madx.attach st bl).1.input = st.input) := by
  refine ⟨?_, ?_⟩
  · simp [Georges.Madx.run, hexec]
  · simp [Georges.Madx.attach, hlen]

/-- Witness for C2 at a concrete unresolved-executable state and a concrete
`NaN`-length beamline. -/
theorem Georges.Madx.run_attach_config_errors_witness :
    Georges.Madx.stNoExec.exec = none ∧
    Georges.Madx.blNoLength.length.isnull = true ∧
    (((Georges.Madx.run Georges.Madx.stNoExec).spawned = false ∧
      (Georges.Madx.run Georges.Madx.stNoExec).error =
        some (Georges.Madx.PyError.madxError
          "Can't run MADX if no valid path and executable are defined.")) ∧
     ((Georges.Madx.attach Georges.Madx.stNoExec Georges.Madx.blNoLength).2 =
        some (Georges.Madx.PyError.simulatorError "Beamline length not defined.") ∧
      (Georges.Madx.attach Georges.Madx.stNoExec Georges.Madx.blNoLength).1.input =
        Georges.Madx.stNoExec.input)) :=
  ⟨rfl, rfl,
   Georges.Madx.run_attach_config_errors Georges.Madx.stNoExec
     Georges.Madx.blNoLength rfl rfl⟩

/-- C9: when `run` raises the missing-executable error, the input buffer has
already been extended with the rendered stop command and is not restored: a
failed run permanently mutates the wrapper's input state. -/
theorem Georges.Madx.run_appends_stop_before_error (st : Georges.Madx.MadxState)
    (hexec : st.exec = none) :
    (Georges.Madx.run st).state.input =
      st.input ++ Georges.Madx.render_cmd "stop" [] ∧
    (Georges.Madx.run st).error =
      some (Georges.Madx.PyError.madxError
        "Can't run MADX if no valid path and executable are defined.") := by
  simp [Georges.Madx.run, hexec]

/-- Witness for C9 at a concrete unresolved-executable state with a
non-empty buffer. -/
theorem Georges.Madx.run_appends_stop_before_error_witness :
    Georges.Madx.stNoExec.exec = none ∧
    ((Georges.Madx.run Georges.Madx.stNoExec).state.input =
       Georges.Madx.stNoExec.input ++ Georges.Madx.render_cmd "stop" [] ∧
     (Georges.Madx.run Georges.Madx.stNoExec).error =
       some (Georges.Madx.PyError.madxError
         "Can't run MADX if no valid path and executable are defined.")) :=
  ⟨rfl, Georges.Madx.run_appends_stop_before_error Georges.Madx.stNoExec rfl⟩

/-- C8: the plain tracking variant with one admissible particle appends the
two makethin SELECT lines, the makethin command, the use-sequence command
and the track-beamline command, and then raises `AttributeError` on line
300's `self._add_particles_for_tracking` (the method exists only under the
name-mangled `_Madx__add_particles_for_tracking`), so no start-particle,
observation, run-track or end-track command is ever emitted; with zero
particles the state is untouched (console notice only). -/
theorem Georges.Madx.madx_track_attribute_error :
    (Georges.Madx.madx_track Georges.Madx.st0 Georges.Madx.oneParticle
        Georges.Madx.bl0 "TEAPOT" 4 4 =
      (⟨some "madx",
        "" ++ "SELECT, FLAG=makethin, CLASS=quadrupole, THICK=false, SLICE=4;\n" ++
        "SELECT, FLAG=makethin, CLASS=rbend, THICK=false, SLICE=4;\n" ++
        Georges.Madx.render_cmd "makethin" ["BL", "TEAPOT"] ++
        Georges.Madx.render_cmd "use_sequence" ["BL"] ++
        Georges.Madx.render_cmd "track_beamline" [], none⟩,
       some (Georges.Madx.PyError.attributeError "_add_particles_for_tracking"))) ∧
    (Georges.Madx.madx_track Georges.Madx.st0 Georges.Madx.noParticles
        Georges.Madx.bl0 "TEAPOT" 4 4 = (Georges.Madx.st0, none)) :=
  ⟨rfl, rfl⟩
